import Mathlib

/-!
Verification development for the NiftyNet image reader core
(niftynet/io/image_reader.py).

The Python module is shallowly embedded below:
  - pandas DataFrames become an explicit column-list / row-list structure;
  - a csv manifest file becomes its parsed two-column content, a list of
    (subject_id, path) pairs (file-system reads are outside the embedded core);
  - Python dicts (data_param, task_param, input_sources, catalog entries)
    become association lists in insertion order;
  - raised exceptions become an Except value whose error constructors are
    named after the error taxonomy of the design document
    (EmptyManifest, UnsupportedApplication, UnknownModality, ...);
  - numpy dtype descriptors become a (name, kind) pair, where kind is the
    one-character numpy kind code;
  - the external image-object abstraction is represented by a record of the
    construction parameters plus abstract decoded payload / dtype fields.
-/

set_option maxRecDepth 4096

/-- TensorFlow element types appearing in the NP_TF_DTYPES table. -/
inductive TfDtype where
  | int32
  | float32
deriving DecidableEq

/-- A numpy dtype descriptor: its full name (distinct dtype objects compare
unequal even when their kind agrees, e.g. int32 vs int64) and its
one-character kind code, mirroring numpy's dtype.kind attribute. -/
structure NpDtype where
  name : String
  kind : String
deriving DecidableEq

/-- Error conditions raised by the reader, named after the design document's
taxonomy.  noneTypeError models the Python AttributeError hit when
data_param is empty (the merge loop never runs and None.size is accessed);
nameMissing models the KeyError on task_param with no name entry. -/
inductive ReaderError where
  | emptyManifest
  | noneTypeError
  | nameMissing
  | unsupportedApplication
  | unknownModality
deriving DecidableEq

/-- One modality section of data_param.  In the source, csv_file is a path
that is then read from disk; the file-system step is outside the embedded
core, so csv_file here directly holds the parsed two-column content
(subject_id, path per row). -/
structure ModSpec where
  csv_file : List (String × String)
  interp_order : Nat
  pixdim : String
  axcodes : String
deriving DecidableEq

/-- data_param: modality name to its section, in insertion order. -/
abbrev DataParam := List (String × ModSpec)

/-- A task_param dict value: the name entry holds a string (the application
file name); every field entry holds a tuple of modality names. -/
inductive TVal where
  | str (s : String)
  | tup (mods : List String)
deriving DecidableEq

/-- task_param: key to value, in insertion order. -/
abbrev TaskParam := List (String × TVal)

/-- A pandas DataFrame as used by the module: a list of column labels
(first subject_id, then one label per merged modality) and rows carrying
the subject id plus one path per modality column. -/
structure DataFrame where
  columns : List String
  rows : List (String × List String)
deriving DecidableEq

/-- Generic association-list lookup: Python d[k] / d.get(k) on a dict
modelled as a list of pairs. -/
def alist_find {β : Type} (l : List (String × β)) (k : String) : Option β :=
  (l.find? (fun p => p.1 == k)).map Prod.snd

/-- The NP_TF_DTYPES dict of the source, as a function from kind code. -/
def NP_TF_DTYPES (kind : String) : Option TfDtype :=
  if kind == "i" ∨ kind == "u" ∨ kind == "b" then some TfDtype.int32
  else if kind == "f" then some TfDtype.float32
  else none

/-- infer_tf_dtypes(image_object): builds the set of distinct dtype
descriptors reported by the image (set(image_object.dtype), modelled by
List.dedup); with more than one distinct descriptor returns
NP_TF_DTYPES.get('f'), otherwise maps the single descriptor's kind through
the table with default None.  The outer Option models the uncaught KeyError
of set.pop() on an empty set: none is the crash, some r is a normal return
of r. -/
def infer_tf_dtypes (dtype : List NpDtype) : Option (Option TfDtype) :=
  let uniq_np_dtype := dtype.dedup
  if 1 < uniq_np_dtype.length then some (NP_TF_DTYPES "f")
  else
    match uniq_np_dtype with
    | [] => none
    | d :: _ => some (NP_TF_DTYPES d.kind)

/-- pandas.read_csv(csv_file, header=None, names=[subject_id, modality]):
the two-column frame for one modality. -/
def read_csv (modality : String) (csv : List (String × String)) : DataFrame :=
  { columns := ["subject_id", modality],
    rows := csv.map (fun p => (p.1, [p.2])) }

/-- pandas.merge(left, csv_frame, on=subject_id) with the right operand a
fresh two-column frame: inner join, left key order preserved, matching
right rows in right order, key column kept once. -/
def merge_csv (left : DataFrame) (modality : String)
    (csv : List (String × String)) : DataFrame :=
  { columns := left.columns ++ [modality],
    rows := left.rows.flatMap (fun l =>
      (csv.filter (fun c => c.1 == l.1)).map (fun c => (l.1, l.2 ++ [c.2]))) }

/-- The accumulated frame after the merge loop of _load_and_merge_csv_files
over a non-empty data_param (head modality read first, remaining modalities
merged in order). -/
def merge_all (m0 : String) (s0 : ModSpec) (rest : List (String × ModSpec)) :
    DataFrame :=
  rest.foldl (fun acc p => merge_csv acc p.1 p.2.csv_file)
    (read_csv m0 s0.csv_file)

/-- ImageReader._load_and_merge_csv_files(data_param).  The per-file
os.path.isfile check is a file-system concern outside the embedded core
(csv contents are the input here); the non-fatal row-shrink warning is a
pure side effect and is dropped.  The final guard is the source's
_file_list.size == 0 test, with pandas size = rows * columns; on an empty
data_param the source dereferences None (noneTypeError). -/
def _load_and_merge_csv_files : DataParam → Except ReaderError DataFrame
  | [] => Except.error ReaderError.noneTypeError
  | (m, s) :: rest =>
    let df := merge_all m s rest
    if df.rows.length * df.columns.length == 0 then
      Except.error ReaderError.emptyManifest
    else
      Except.ok df

/-- The external image object: the construction parameters passed by
_create_image, plus the externally produced decoded payload (get_data) and
native dtype descriptors, represented abstractly. -/
structure ImageObj where
  file_path : List String
  name : List String
  interp_order : List Nat
  output_pixdim : List String
  output_axcodes : List String
  get_data : Nat
  dtype : List NpDtype
deriving DecidableEq

/-- Modelled from the spec: ImageFactory.create_instance lives in
niftynet/io/input_type.py, outside src/.  Per the design document's external
interface it constructs the image object from the tuple
(file_path, name, interp_order, output_pixdim, output_axcodes); decoded
payload and native dtypes are produced later by the external image object
and play no role in descriptor construction, so they are fixed defaults
here. -/
def ImageFactory_create_instance (fp : List String) (nm : List String)
    (ords : List Nat) (pds : List String) (acs : List String) : ImageObj :=
  { file_path := fp, name := nm, interp_order := ords,
    output_pixdim := pds, output_axcodes := acs,
    get_data := 0, dtype := [] }

/-- pandas DataFrame.loc[idx, col]: the value of column col in row idx,
none when the row label or the column label is absent (a KeyError in the
source). -/
def df_loc (df : DataFrame) (idx : Nat) (col : String) : Option String :=
  match df.rows.get? idx with
  | none => none
  | some row =>
    match df.columns.findIdx? (fun c => c == col) with
    | none => none
    | some 0 => some row.1
    | some (j + 1) => row.2.get? j

/-- The file_path list comprehension of _create_image: one loc lookup per
modality, failing (KeyError) as soon as one lookup fails. -/
def lookup_paths (df : DataFrame) (idx : Nat) :
    List String → Option (List String)
  | [] => some []
  | mod :: mods =>
    match df_loc df idx mod, lookup_paths df idx mods with
    | some p, some ps => some (p :: ps)
    | _, _ => none

/-- The property list comprehensions of _create_image: one data_param
lookup per modality projected through g, failing (KeyError) as soon as a
modality name is absent from data_param. -/
def lookup_props {α : Type} (dp : DataParam) (g : ModSpec → α) :
    List String → Option (List α)
  | [] => some []
  | mod :: mods =>
    match alist_find dp mod, lookup_props dp g mods with
    | some spec, some rest => some (g spec :: rest)
    | _, _ => none

/-- ImageReader._create_image(idx, modalities, data_param): the four
comprehensions run in source order inside a try/except KeyError; any failed
lookup (missing column or missing data_param section) surfaces as the
UnknownModality fatal condition. -/
def _create_image (file_list : DataFrame) (idx : Nat)
    (modalities : List String) (dp : DataParam) :
    Except ReaderError ImageObj :=
  match lookup_paths file_list idx modalities with
  | none => Except.error ReaderError.unknownModality
  | some fp =>
    match lookup_props dp (fun s => s.interp_order) modalities with
    | none => Except.error ReaderError.unknownModality
    | some ords =>
      match lookup_props dp (fun s => s.pixdim) modalities with
      | none => Except.error ReaderError.unknownModality
      | some pds =>
        match lookup_props dp (fun s => s.axcodes) modalities with
        | none => Except.error ReaderError.unknownModality
        | some acs =>
          Except.ok (ImageFactory_create_instance fp modalities ords pds acs)

/-- One catalog entry: the per-subject dict field name to image object, in
input_sources insertion order. -/
abbrev Entry := List (String × ImageObj)

/-- Left-to-right effectful map: the first exception raised inside a Python
comprehension aborts the whole comprehension. -/
def mapE {α β : Type} (f : α → Except ReaderError β) :
    List α → Except ReaderError (List β)
  | [] => Except.ok []
  | x :: xs =>
    match f x with
    | Except.error e => Except.error e
    | Except.ok y =>
      match mapE f xs with
      | Except.error e => Except.error e
      | Except.ok ys => Except.ok (y :: ys)

/-- Python iteration over a field tuple in _create_image.  Field values are
tuples in practice; iterating a string value (the name entry, if ever
selected) yields its characters, as in Python. -/
def tvalMods : TVal → List String
  | TVal.tup l => l
  | TVal.str s => s.data.map (fun c => String.mk [c])

/-- ImageReader._filename_to_image_list: for every row index of the merged
file list build the dict field to image object over input_sources; the
progress-bar call is a pure side effect and is dropped; any _create_image
failure aborts the whole build. -/
def _filename_to_image_list (input_sources : List (String × TVal))
    (file_list : DataFrame) (dp : DataParam) :
    Except ReaderError (List Entry) :=
  mapE (fun row_id =>
      mapE (fun fv =>
          (_create_image file_list row_id (tvalMods fv.2) dp).map
            (fun img => (fv.1, img)))
        input_sources)
    (List.range file_list.rows.length)

/-- The mutable state of an ImageReader.  The memoized _shapes/_dtypes
caches are not modelled (no claim touches them); pre-initialisation None
values of output_list / current_id are represented by the initial defaults,
which the modelled claims never observe. -/
structure Reader where
  output_fields : List String
  input_sources : List (String × TVal)
  output_list : List Entry
  current_id : Int
  file_list : Option DataFrame
deriving DecidableEq

/-- The value `task_param[field] != ()` of the field filter: a string value
never equals the empty tuple; a tuple value differs from () iff non-empty. -/
def tvalNeUnit : TVal → Bool
  | TVal.str _ => true
  | TVal.tup l => !l.isEmpty

/-- Modelled from the spec: the SUPPORTED_INPUT sets imported from
niftynet.application.segmentation_application and
niftynet.application.gan_application live outside src/; they are supplied
as the parameters seg and gan.  The dispatch on the application file name
is the source's if/elif chain; an unrecognized name leaves SUPPORTED_INPUT
unbound (none). -/
def supported_input (seg gan : List String) (app_type : String) :
    Option (List String) :=
  if app_type == "net_segmentation.py" then some seg
  else if app_type == "net_gan.py" then some gan
  else none

/-- The source's `if not self.output_fields: self.output_fields =
SUPPORTED_INPUT` step: when the caller supplied no (non-empty) field list,
the supported set of the dispatched application is used, and an
unrecognized application leaves it unbound (none, the NameError mapped to
UnsupportedApplication); otherwise the caller's list is kept and
SUPPORTED_INPUT is never referenced. -/
def resolve_fields0 (seg gan : List String) (r : Reader) (nameVal : TVal) :
    Option (List String) :=
  if r.output_fields.isEmpty then
    match nameVal with
    | TVal.str app => supported_input seg gan app
    | TVal.tup _ => none
  else some r.output_fields

/-- The field filter of initialise_reader: the task_param keys that are in
the current output-field set and bound to a value other than (). -/
def resolve_output_fields (fields0 : List String) (tp : TaskParam) :
    List String :=
  (tp.filter (fun p => fields0.contains p.1 && tvalNeUnit p.2)).map Prod.fst

/-- The input_sources dict comprehension of initialise_reader: field to
task_param[field], over the resolved fields in order. -/
def resolve_sources (tp : TaskParam) (fields1 : List String) :
    List (String × TVal) :=
  fields1.filterMap (fun f => (alist_find tp f).map (fun v => (f, v)))

/-- ImageReader.initialise_reader(data_param, task_param), parameterized by
the two external SUPPORTED_INPUT sets.  Order of effects follows the
source: task_param[name] is read first, then the manifests are merged,
then the field set is resolved (referencing the unbound SUPPORTED_INPUT,
i.e. failing with UnsupportedApplication, only when the caller-supplied
output_fields is empty), then the catalog is built and the cursor reset.
make_input_tuple only normalizes a field sequence to a tuple of strings
and is the identity on the lists used here. -/
def initialise_reader (seg gan : List String) (r : Reader)
    (data_param : DataParam) (task_param : TaskParam) :
    Except ReaderError Reader :=
  match alist_find task_param "name" with
  | none => Except.error ReaderError.nameMissing
  | some nameVal =>
    match _load_and_merge_csv_files data_param with
    | Except.error e => Except.error e
    | Except.ok file_list =>
      match resolve_fields0 seg gan r nameVal with
      | none => Except.error ReaderError.unsupportedApplication
      | some fields0 =>
        let fields1 := resolve_output_fields fields0 task_param
        let sources := resolve_sources task_param fields1
        match _filename_to_image_list sources file_list data_param with
        | Except.error e => Except.error e
        | Except.ok vols =>
          Except.ok { output_fields := fields1, input_sources := sources,
                      output_list := vols, current_id := -1,
                      file_list := some file_list }

/-- The dict comprehension of layer_op: field to image.get_data(). -/
def image_data_dict (e : Entry) : List (String × Nat) :=
  e.map (fun p => (p.1, p.2.get_data))

/-- ImageReader.layer_op(shuffle): rand stands for the external
np.random.randint draw consumed only on the shuffled path (the source
indexes the list directly, which for randint's in-range result equals the
safe lookup used here).  The final truthiness test (if output_image:) is
false both for None and for an empty dict, so an empty catalog entry also
yields the (None, None) sentinel. -/
def layer_op (r : Reader) (shuffle : Bool) (rand : Nat) :
    Reader × Option Int × Option (List (String × Nat)) :=
  let step :=
    if shuffle then
      (r, (rand : Int), r.output_list.get? rand)
    else
      let idx : Int := r.current_id + 1
      ({ r with current_id := idx }, idx,
       if 0 ≤ idx ∧ idx < (r.output_list.length : Int) then
         r.output_list.get? idx.toNat
       else none)
  match step.2.2 with
  | some e =>
    if !e.isEmpty then (step.1, some step.2.1, some (image_data_dict e))
    else (step.1, none, none)
  | none => (step.1, none, none)

/-- The reader state after k successive sequential (shuffle=False) calls. -/
def seq_states (r : Reader) : Nat → Reader
  | 0 => r
  | k + 1 => (layer_op (seq_states r k) false 0).1

/-- Whether an Except value is a normal return. -/
def exOk {α : Type} : Except ReaderError α → Bool
  | Except.ok _ => true
  | Except.error _ => false

/-- The resolved output-field list of a successful initialisation. -/
def okFields : Except ReaderError Reader → Option (List String)
  | Except.ok r => some r.output_fields
  | Except.error _ => none

/-- The manifest lookup of one modality csv for one subject: the path the
source table associates with that subject id (first match). -/
def find_path (csv : List (String × String)) (sid : String) : Option String :=
  alist_find csv sid

/-- The per-modality path lookups of all remaining modalities for one
subject id, failing when any modality's table lacks the subject. -/
def lookup_all : List (String × ModSpec) → String → Option (List String)
  | [], _ => some []
  | q :: qs, sid =>
    match find_path q.2.csv_file sid, lookup_all qs sid with
    | some p, some ps => some (p :: ps)
    | _, _ => none

/- ------------------------------------------------------------------ -/
/- Association-list lemmas                                            -/
/- ------------------------------------------------------------------ -/

theorem alist_find_cons_pos {β : Type} (p : String × β) (ps : List (String × β))
    (k : String) (h : p.1 = k) : alist_find (p :: ps) k = some p.2 := by
  simp [alist_find, List.find?_cons_of_pos, h]

theorem alist_find_cons_neg {β : Type} (p : String × β) (ps : List (String × β))
    (k : String) (h : ¬p.1 = k) : alist_find (p :: ps) k = alist_find ps k := by
  simp only [alist_find]
  rw [List.find?_cons_of_neg]
  simpa using h

theorem alist_find_isSome {β : Type} (l : List (String × β)) (k : String) :
    (alist_find l k).isSome = true ↔ k ∈ l.map Prod.fst := by
  have h1 : (alist_find l k).isSome = (l.find? (fun p => p.1 == k)).isSome := by
    rw [alist_find]
    cases l.find? (fun p => p.1 == k) <;> rfl
  rw [h1, List.find?_isSome]
  constructor
  · rintro ⟨x, hx, he⟩
    exact List.mem_map.mpr ⟨x, hx, by simpa using he⟩
  · intro hk
    rcases List.mem_map.mp hk with ⟨x, hx, he⟩
    exact ⟨x, hx, by simpa using he⟩

theorem alist_find_of_mem_nodup {β : Type} :
    ∀ (l : List (String × β)), (l.map Prod.fst).Nodup →
      ∀ p ∈ l, alist_find l p.1 = some p.2
  | [], _, p, hp => absurd hp (List.not_mem_nil p)
  | q :: qs, hnd, p, hp => by
    rcases List.mem_cons.mp hp with rfl | hp'
    · exact alist_find_cons_pos p qs p.1 rfl
    · have hnd' := hnd
      rw [List.map_cons, List.nodup_cons] at hnd'
      have hq : ¬q.1 = p.1 := by
        intro he
        exact hnd'.1 (he ▸ List.mem_map.mpr ⟨p, hp', rfl⟩)
      rw [alist_find_cons_neg q qs p.1 hq]
      exact alist_find_of_mem_nodup qs hnd'.2 p hp'

theorem filter_key_nodup {β : Type} :
    ∀ (l : List (String × β)), (l.map Prod.fst).Nodup → ∀ (k : String),
      l.filter (fun c => c.1 == k) =
        (match alist_find l k with
         | some v => [(k, v)]
         | none => [])
  | [], _, k => by simp [alist_find]
  | ⟨q1, q2⟩ :: qs, hnd, k => by
    have hnd' := hnd
    rw [List.map_cons, List.nodup_cons] at hnd'
    by_cases h : q1 = k
    · subst h
      rw [alist_find_cons_pos (q1, q2) qs q1 rfl]
      have htail : qs.filter (fun c => c.1 == q1) = [] := by
        rw [List.filter_eq_nil_iff]
        intro c hc hck
        have hck' : c.1 = q1 := by simpa using hck
        exact hnd'.1 (hck' ▸ List.mem_map.mpr ⟨c, hc, rfl⟩)
      simp [List.filter_cons, htail]
    · rw [alist_find_cons_neg (q1, q2) qs k (by simpa using h)]
      simp only [List.filter_cons]
      rw [if_neg (by simpa using h)]
      exact filter_key_nodup qs hnd'.2 k

theorem find_path_isSome (csv : List (String × String)) (sid : String) :
    (find_path csv sid).isSome = (csv.map Prod.fst).contains sid := by
  rw [Bool.eq_iff_iff, find_path, alist_find_isSome]
  simp [List.elem_iff, List.contains]

/- ------------------------------------------------------------------ -/
/- Merge lemmas                                                       -/
/- ------------------------------------------------------------------ -/

theorem foldl_merge_columns :
    ∀ (mods : List (String × ModSpec)) (acc : DataFrame),
      (mods.foldl (fun a p => merge_csv a p.1 p.2.csv_file) acc).columns =
        acc.columns ++ mods.map Prod.fst
  | [], acc => by simp
  | (m, s) :: mods', acc => by
    rw [List.foldl_cons, foldl_merge_columns mods' (merge_csv acc m s.csv_file)]
    simp [merge_csv]

theorem foldl_merge_rows :
    ∀ (mods : List (String × ModSpec)) (acc : DataFrame),
      (∀ q ∈ mods, (q.2.csv_file.map Prod.fst).Nodup) →
      (mods.foldl (fun a p => merge_csv a p.1 p.2.csv_file) acc).rows =
        acc.rows.flatMap (fun l =>
          match lookup_all mods l.1 with
          | some ps => [(l.1, l.2 ++ ps)]
          | none => [])
  | [], acc, _ => by
    simp only [List.foldl_nil, lookup_all, List.append_nil]
    exact (List.flatMap_singleton' acc.rows).symm
  | (m, s) :: mods', acc, hnd => by
    have hhead : (s.csv_file.map Prod.fst).Nodup := hnd (m, s) (List.mem_cons_self _ _)
    have htail : ∀ q ∈ mods', (q.2.csv_file.map Prod.fst).Nodup :=
      fun q hq => hnd q (List.mem_cons_of_mem _ hq)
    rw [List.foldl_cons, foldl_merge_rows mods' (merge_csv acc m s.csv_file) htail]
    simp only [merge_csv]
    rw [List.flatMap_assoc]
    congr 1
    funext l
    rw [filter_key_nodup s.csv_file hhead l.1]
    cases hf : alist_find s.csv_file l.1 with
    | none => simp [lookup_all, find_path, hf]
    | some v =>
      cases hl : lookup_all mods' l.1 <;>
        simp [lookup_all, find_path, hf, hl, List.append_assoc]

theorem merge_all_columns (m0 : String) (s0 : ModSpec)
    (rest : List (String × ModSpec)) :
    (merge_all m0 s0 rest).columns = "subject_id" :: m0 :: rest.map Prod.fst := by
  rw [merge_all, foldl_merge_columns]
  rfl

theorem merge_all_rows (m0 : String) (s0 : ModSpec)
    (rest : List (String × ModSpec))
    (hnd : ∀ q ∈ rest, (q.2.csv_file.map Prod.fst).Nodup) :
    (merge_all m0 s0 rest).rows =
      s0.csv_file.flatMap (fun p =>
        match lookup_all rest p.1 with
        | some ps => [(p.1, p.2 :: ps)]
        | none => []) := by
  rw [merge_all, foldl_merge_rows rest _ hnd]
  simp only [read_csv]
  rw [List.flatMap_map]
  rfl

theorem lookup_all_isSome :
    ∀ (mods : List (String × ModSpec)) (sid : String),
      (lookup_all mods sid).isSome =
        mods.all (fun q => (q.2.csv_file.map Prod.fst).contains sid)
  | [], _ => rfl
  | q :: qs, sid => by
    rw [List.all_cons, ← lookup_all_isSome qs sid, ← find_path_isSome q.2.csv_file sid]
    cases hf : find_path q.2.csv_file sid <;> cases hl : lookup_all qs sid <;>
      simp [lookup_all, hf, hl]

theorem lookup_all_map_some :
    ∀ (mods : List (String × ModSpec)) (sid : String) (ps : List String),
      lookup_all mods sid = some ps →
      ps.map some = mods.map (fun q => find_path q.2.csv_file sid)
  | [], _, ps, h => by
    have h' : (some [] : Option (List String)) = some ps := h
    have hps : ([] : List String) = ps := Option.some_inj.mp h'
    subst hps
    rfl
  | q :: qs, sid, ps, h => by
    cases hf : find_path q.2.csv_file sid with
    | none => simp [lookup_all, hf] at h
    | some v =>
      cases hl : lookup_all qs sid with
      | none => simp [lookup_all, hf, hl] at h
      | some ps' =>
        have ih := lookup_all_map_some qs sid ps' hl
        simp only [lookup_all, hf, hl] at h
        have hps : v :: ps' = ps := Option.some_inj.mp h
        subst hps
        rw [List.map_cons, List.map_cons, ih, hf]

theorem mem_merge_csv_rows (acc : DataFrame) (m : String)
    (csv : List (String × String)) (row : String × List String)
    (h : row ∈ (merge_csv acc m csv).rows) :
    ∃ l ∈ acc.rows, row.1 = l.1 ∧ row.1 ∈ csv.map Prod.fst := by
  simp only [merge_csv] at h
  rcases List.mem_flatMap.mp h with ⟨l, hl, hrow⟩
  rcases List.mem_map.mp hrow with ⟨c, hc, hceq⟩
  rcases List.mem_filter.mp hc with ⟨hcsv, hck⟩
  have hck' : c.1 = l.1 := by simpa using hck
  refine ⟨l, hl, ?_, ?_⟩
  · rw [← hceq]
  · rw [← hceq]
    show l.1 ∈ csv.map Prod.fst
    rw [← hck']
    exact List.mem_map.mpr ⟨c, hcsv, rfl⟩

theorem mem_foldl_merge :
    ∀ (mods : List (String × ModSpec)) (acc : DataFrame)
      (row : String × List String),
      row ∈ (mods.foldl (fun a p => merge_csv a p.1 p.2.csv_file) acc).rows →
      ∃ l ∈ acc.rows, row.1 = l.1 ∧
        ∀ q ∈ mods, row.1 ∈ q.2.csv_file.map Prod.fst
  | [], _, row, h => ⟨row, h, rfl, fun q hq => absurd hq (List.not_mem_nil q)⟩
  | (m, s) :: mods', acc, row, h => by
    rw [List.foldl_cons] at h
    rcases mem_foldl_merge mods' (merge_csv acc m s.csv_file) row h with
      ⟨l', hl', heq, hall⟩
    rcases mem_merge_csv_rows acc m s.csv_file l' hl' with ⟨l, hl, heq2, hkey⟩
    refine ⟨l, hl, heq.trans heq2, ?_⟩
    intro q hq
    rcases List.mem_cons.mp hq with rfl | hq'
    · rw [heq]
      exact hkey
    · exact hall q hq'

/- ------------------------------------------------------------------ -/
/- Claims C1 and C4                                                   -/
/- ------------------------------------------------------------------ -/

/-- C1: for per-modality manifest tables with unique subject identifiers
(the data-model invariant of a manifest) whose subject-identifier sets have
a non-empty intersection, the merge succeeds and returns a table whose
columns are the subject id followed by the modalities in order, whose
subject column lists exactly the first manifest's subjects lying in every
modality's subject set (hence, by uniqueness, exactly one row per subject
in the intersection), and in which every row's path under each modality's
column is exactly the path that modality's source table associates with the
row's subject. -/
theorem C1_merge_join_correct (m0 : String) (s0 : ModSpec)
    (rest : List (String × ModSpec))
    (hnd : ∀ q ∈ (m0, s0) :: rest, (q.2.csv_file.map Prod.fst).Nodup)
    (hcommon : ∃ sid, sid ∈ s0.csv_file.map Prod.fst ∧
      rest.all (fun q => (q.2.csv_file.map Prod.fst).contains sid) = true) :
    ∃ df, _load_and_merge_csv_files ((m0, s0) :: rest) = Except.ok df ∧
      df.columns = "subject_id" :: m0 :: rest.map Prod.fst ∧
      df.rows.map Prod.fst = (s0.csv_file.map Prod.fst).filter
        (fun sid => rest.all (fun q => (q.2.csv_file.map Prod.fst).contains sid)) ∧
      ∀ row ∈ df.rows, row.2.map some =
        ((m0, s0) :: rest).map (fun q => find_path q.2.csv_file row.1) := by
  have hnd0 : (s0.csv_file.map Prod.fst).Nodup :=
    hnd (m0, s0) (List.mem_cons_self _ _)
  have hndrest : ∀ q ∈ rest, (q.2.csv_file.map Prod.fst).Nodup :=
    fun q hq => hnd q (List.mem_cons_of_mem _ hq)
  have hrows := merge_all_rows m0 s0 rest hndrest
  have hsubj : (merge_all m0 s0 rest).rows.map Prod.fst =
      (s0.csv_file.map Prod.fst).filter
        (fun sid => rest.all (fun q => (q.2.csv_file.map Prod.fst).contains sid)) := by
    rw [hrows, List.map_flatMap]
    have hgen : ∀ (csv : List (String × String)),
        (csv.flatMap (fun p => List.map Prod.fst
          (match lookup_all rest p.1 with
           | some ps => [(p.1, p.2 :: ps)]
           | none => []))) =
        (csv.map Prod.fst).filter (fun sid => (lookup_all rest sid).isSome) := by
      intro csv
      induction csv with
      | nil => rfl
      | cons p ps ih =>
        cases hl : lookup_all rest p.1 <;>
          simp [hl, List.filter_cons, ih]
    rw [hgen]
    exact List.filter_congr (fun sid _ => lookup_all_isSome rest sid)
  obtain ⟨sid, hsid0, hsidall⟩ := hcommon
  have hmem : sid ∈ (merge_all m0 s0 rest).rows.map Prod.fst := by
    rw [hsubj]
    exact List.mem_filter.mpr ⟨hsid0, hsidall⟩
  have hrows_ne : ¬(merge_all m0 s0 rest).rows.length = 0 := by
    intro h0
    rw [List.length_eq_zero] at h0
    rw [h0] at hmem
    simp at hmem
  have hcols := merge_all_columns m0 s0 rest
  have hguard : ((merge_all m0 s0 rest).rows.length *
      (merge_all m0 s0 rest).columns.length == 0) = false := by
    rw [beq_eq_false_iff_ne]
    intro hz
    rcases Nat.mul_eq_zero.mp hz with hz | hz
    · exact hrows_ne hz
    · rw [hcols] at hz
      simp at hz
  refine ⟨merge_all m0 s0 rest, ?_, hcols, hsubj, ?_⟩
  · simp only [_load_and_merge_csv_files, hguard]
    rfl
  · intro row hrow
    rw [hrows] at hrow
    rcases List.mem_flatMap.mp hrow with ⟨p, hp, hmem2⟩
    cases hl : lookup_all rest p.1 with
    | none =>
      rw [hl] at hmem2
      cases hmem2
    | some ps =>
      rw [hl] at hmem2
      have hroweq := List.mem_singleton.mp hmem2
      subst hroweq
      show (p.2 :: ps).map some = _
      rw [List.map_cons, List.map_cons]
      congr 1
      · exact (alist_find_of_mem_nodup s0.csv_file hnd0 p hp).symm
      · exact lookup_all_map_some rest p.1 ps hl

/-- C4: with at least one modality configured, the merge fails with the
EmptyManifest fatal condition whenever the merged result has zero rows or
zero columns; and in particular disjoint subject-identifier sets (no
subject of the first manifest occurs in every other manifest) force the
merged result to have zero rows. -/
theorem C4_empty_manifest (m0 : String) (s0 : ModSpec)
    (rest : List (String × ModSpec)) :
    ((merge_all m0 s0 rest).rows.length = 0 ∨
        (merge_all m0 s0 rest).columns.length = 0 →
      _load_and_merge_csv_files ((m0, s0) :: rest) =
        Except.error ReaderError.emptyManifest) ∧
    ((∀ sid ∈ s0.csv_file.map Prod.fst,
        ¬rest.all (fun q => (q.2.csv_file.map Prod.fst).contains sid) = true) →
      (merge_all m0 s0 rest).rows.length = 0) := by
  constructor
  · intro h
    have hz : (merge_all m0 s0 rest).rows.length *
        (merge_all m0 s0 rest).columns.length = 0 := by
      rcases h with h | h <;> simp [h]
    simp only [_load_and_merge_csv_files, hz]
    rfl
  · intro hdisj
    rw [List.length_eq_zero, List.eq_nil_iff_forall_not_mem]
    intro row hrow
    rw [merge_all] at hrow
    rcases mem_foldl_merge rest (read_csv m0 s0.csv_file) row hrow with
      ⟨l, hl, heq, hall⟩
    simp only [read_csv] at hl
    rcases List.mem_map.mp hl with ⟨p, hp, hleq⟩
    have hkey : row.1 ∈ s0.csv_file.map Prod.fst := by
      rw [heq, ← hleq]
      exact List.mem_map.mpr ⟨p, hp, rfl⟩
    apply hdisj row.1 hkey
    rw [List.all_eq_true]
    intro q hq
    exact List.elem_iff.mpr (hall q hq)

/- ------------------------------------------------------------------ -/
/- Iterator lemmas                                                    -/
/- ------------------------------------------------------------------ -/

theorem layer_op_false_eq (r : Reader) (rand : Nat) :
    layer_op r false rand =
      (match (if 0 ≤ r.current_id + 1 ∧
                 r.current_id + 1 < (r.output_list.length : Int)
              then r.output_list.get? (r.current_id + 1).toNat
              else none) with
       | some e =>
         if !e.isEmpty then
           ({ r with current_id := r.current_id + 1 }, some (r.current_id + 1),
            some (image_data_dict e))
         else ({ r with current_id := r.current_id + 1 }, none, none)
       | none => ({ r with current_id := r.current_id + 1 }, none, none)) := rfl

theorem layer_op_true_eq (r : Reader) (rand : Nat) :
    layer_op r true rand =
      (match r.output_list.get? rand with
       | some e =>
         if !e.isEmpty then (r, some (rand : Int), some (image_data_dict e))
         else (r, none, none)
       | none => (r, none, none)) := rfl

theorem layer_op_false_fst (r : Reader) (rand : Nat) :
    (layer_op r false rand).1 = { r with current_id := r.current_id + 1 } := by
  rw [layer_op_false_eq]
  cases (if 0 ≤ r.current_id + 1 ∧
           r.current_id + 1 < (r.output_list.length : Int)
         then r.output_list.get? (r.current_id + 1).toNat
         else none) with
  | none => rfl
  | some e => by_cases he : e.isEmpty = true <;> simp [he]

theorem seq_states_current (r : Reader) :
    ∀ k : Nat, (seq_states r k).current_id = r.current_id + k
  | 0 => by simp [seq_states]
  | k + 1 => by
    rw [seq_states, layer_op_false_fst]
    show (seq_states r k).current_id + 1 = _
    rw [seq_states_current r k]
    push_cast
    ring

theorem seq_states_output (r : Reader) :
    ∀ k : Nat, (seq_states r k).output_list = r.output_list
  | 0 => rfl
  | k + 1 => by
    rw [seq_states, layer_op_false_fst]
    show (seq_states r k).output_list = _
    exact seq_states_output r k

/- ------------------------------------------------------------------ -/
/- Claims C2, C8, C9                                                  -/
/- ------------------------------------------------------------------ -/

/-- C2: from a freshly initialised reader (cursor at -1) whose catalog
entries all carry at least one field, the k-th sequential call returns
index k-1 with the decoded field data of entry k-1 while k is at most the
catalog length, returns the (None, None) sentinel for every later call,
and after k calls the cursor equals k-1: it advances by exactly one per
call, never wrapping or resetting, even after exhaustion. -/
theorem C2_sequential_iteration (r : Reader) (hinit : r.current_id = -1)
    (hne : ∀ e ∈ r.output_list, e ≠ []) (k : Nat) (hk : 1 ≤ k) :
    (seq_states r k).current_id = (k : Int) - 1 ∧
    (layer_op (seq_states r (k - 1)) false 0).2 =
      ((if k ≤ r.output_list.length then some ((k : Int) - 1) else none),
       (r.output_list.get? (k - 1)).map image_data_dict) := by
  constructor
  · rw [seq_states_current, hinit]
    omega
  · have hc : (seq_states r (k - 1)).current_id = (k : Int) - 2 := by
      rw [seq_states_current, hinit]
      omega
    have ho := seq_states_output r (k - 1)
    rw [layer_op_false_eq, hc, ho]
    have hidx : (k : Int) - 2 + 1 = (k : Int) - 1 := by ring
    rw [hidx]
    by_cases hlen : k ≤ r.output_list.length
    · have h1 : 0 ≤ (k : Int) - 1 ∧
          (k : Int) - 1 < (r.output_list.length : Int) := by omega
      rw [if_pos h1]
      have htn : ((k : Int) - 1).toNat = k - 1 := by omega
      rw [htn]
      cases hg : r.output_list.get? (k - 1) with
      | none =>
        exfalso
        rw [List.get?_eq_getElem?,
          List.getElem?_eq_getElem (show k - 1 < r.output_list.length by omega)]
          at hg
        cases hg
      | some e =>
        have hmem : e ∈ r.output_list := List.get?_mem hg
        have hne' : e.isEmpty = false := by
          cases e with
          | nil => exact absurd rfl (hne [] hmem)
          | cons a as => rfl
        rw [if_pos hlen]
        simp [hne']
    · have h1 : ¬(0 ≤ (k : Int) - 1 ∧
          (k : Int) - 1 < (r.output_list.length : Int)) := by omega
      rw [if_neg h1, if_neg hlen]
      rw [List.get?_eq_getElem?,
        List.getElem?_eq_none (show r.output_list.length ≤ k - 1 by omega)]
      rfl

/-- C8: a shuffled call leaves the reader record (cursor, catalog, field
set, input sources) unchanged, and either returns the sentinel (no index)
or returns exactly the drawn index, which then lies in [0, catalog
length). -/
theorem C8_shuffle_stateless (r : Reader) (rand : Nat) :
    (layer_op r true rand).1 = r ∧
    ((layer_op r true rand).2.1 = none ∨
      ((layer_op r true rand).2.1 = some (rand : Int) ∧
        0 ≤ (rand : Int) ∧ (rand : Int) < (r.output_list.length : Int))) := by
  rw [layer_op_true_eq]
  cases hg : r.output_list.get? rand with
  | none => exact ⟨rfl, Or.inl rfl⟩
  | some e =>
    have hlt : rand < r.output_list.length := by
      by_contra hge
      rw [List.get?_eq_getElem?,
        List.getElem?_eq_none (show r.output_list.length ≤ rand by omega)] at hg
      cases hg
    by_cases he : e.isEmpty = true
    · simp [he]
    · have he' : e.isEmpty = false := by
        cases hb : e.isEmpty
        · rfl
        · exact absurd hb he
      constructor
      · simp [he']
      · right
        refine ⟨by simp [he'], by omega, ?_⟩
        exact_mod_cast hlt

/-- C9: when every catalog entry is an empty field dictionary, every call
of next returns the (None, None) sentinel: a shuffled call with an
in-range draw and a sequential call alike, because the empty dictionary is
falsy exactly like the absent entry. -/
theorem C9_empty_entries_sentinel (r : Reader)
    (hempty : ∀ e ∈ r.output_list, e = []) (sh : Bool) (rand : Nat)
    (hr : sh = true → rand < r.output_list.length) :
    (layer_op r sh rand).2 = (none, none) := by
  cases sh with
  | false =>
    rw [layer_op_false_eq]
    by_cases hguard : 0 ≤ r.current_id + 1 ∧
        r.current_id + 1 < (r.output_list.length : Int)
    · rw [if_pos hguard]
      cases hg : r.output_list.get? (r.current_id + 1).toNat with
      | none => rfl
      | some e =>
        have he : e = [] := hempty e (List.get?_mem hg)
        subst he
        rfl
    · rw [if_neg hguard]
  | true =>
    rw [layer_op_true_eq]
    cases hg : r.output_list.get? rand with
    | none => rfl
    | some e =>
      have he : e = [] := hempty e (List.get?_mem hg)
      subst he
      rfl

/-- Concrete image and reader used by the iterator witnesses. -/
def img_w : ImageObj :=
  { file_path := ["a1.img"], name := ["A"], interp_order := [3],
    output_pixdim := ["pd"], output_axcodes := ["ac"],
    get_data := 7, dtype := [{ name := "float32", kind := "f" }] }

def reader_w : Reader :=
  { output_fields := ["image"], input_sources := [("image", TVal.tup ["A"])],
    output_list := [[("image", img_w)], [("image", img_w)]],
    current_id := -1, file_list := none }

/-- Witness for C2: a fresh two-entry reader, exercised at the first call
(in range) and at the third call (after exhaustion). -/
theorem C2_sequential_iteration_witness :
    ((seq_states reader_w 1).current_id = (1 : Int) - 1 ∧
      (layer_op (seq_states reader_w (1 - 1)) false 0).2 =
        ((if 1 ≤ reader_w.output_list.length then some ((1 : Int) - 1) else none),
         (reader_w.output_list.get? (1 - 1)).map image_data_dict)) ∧
    ((seq_states reader_w 3).current_id = (3 : Int) - 1 ∧
      (layer_op (seq_states reader_w (3 - 1)) false 0).2 =
        ((if 3 ≤ reader_w.output_list.length then some ((3 : Int) - 1) else none),
         (reader_w.output_list.get? (3 - 1)).map image_data_dict)) :=
  ⟨C2_sequential_iteration reader_w rfl (by decide) 1 (by decide),
   C2_sequential_iteration reader_w rfl (by decide) 3 (by decide)⟩

/-- Manifest contents of the worked example in the design document,
used by the merge witnesses. -/
def specA : ModSpec :=
  { csv_file := [("s1", "a1.img"), ("s2", "a2.img")],
    interp_order := 1, pixdim := "pd", axcodes := "ac" }

def specB : ModSpec :=
  { csv_file := [("s1", "b1.img"), ("s3", "b3.img")],
    interp_order := 2, pixdim := "pd", axcodes := "ac" }

def specB_disjoint : ModSpec :=
  { csv_file := [("s9", "x.img")],
    interp_order := 2, pixdim := "pd", axcodes := "ac" }

/-- Witness for C1: merging the example manifests A and B, which share
exactly the subject s1. -/
theorem C1_merge_join_correct_witness :
    ∃ df, _load_and_merge_csv_files [("A", specA), ("B", specB)] = Except.ok df ∧
      df.columns = "subject_id" :: "A" :: [("B", specB)].map Prod.fst ∧
      df.rows.map Prod.fst = (specA.csv_file.map Prod.fst).filter
        (fun sid => [("B", specB)].all
          (fun q => (q.2.csv_file.map Prod.fst).contains sid)) ∧
      ∀ row ∈ df.rows, row.2.map some =
        [("A", specA), ("B", specB)].map
          (fun q => find_path q.2.csv_file row.1) :=
  C1_merge_join_correct "A" specA [("B", specB)] (by decide)
    ⟨"s1", by decide, by decide⟩

/-- Witness for C4: merging the example manifest A with a manifest sharing
no subject yields zero rows and the EmptyManifest failure. -/
theorem C4_empty_manifest_witness :
    (merge_all "A" specA [("B", specB_disjoint)]).rows.length = 0 ∧
    _load_and_merge_csv_files [("A", specA), ("B", specB_disjoint)] =
      Except.error ReaderError.emptyManifest :=
  ⟨(C4_empty_manifest "A" specA [("B", specB_disjoint)]).2 (by decide),
   (C4_empty_manifest "A" specA [("B", specB_disjoint)]).1
     (Or.inl ((C4_empty_manifest "A" specA [("B", specB_disjoint)]).2
       (by decide)))⟩

/- ------------------------------------------------------------------ -/
/- Catalog-construction lemmas and claim C5                           -/
/- ------------------------------------------------------------------ -/

theorem create_image_error_eq (fl : DataFrame) (idx : Nat)
    (mods : List String) (dp : DataParam) (e : ReaderError)
    (h : _create_image fl idx mods dp = Except.error e) :
    e = ReaderError.unknownModality := by
  unfold _create_image at h
  cases h1 : lookup_paths fl idx mods with
  | none =>
    simp only [h1] at h
    injection h with h'
    exact h'.symm
  | some fp =>
    simp only [h1] at h
    cases h2 : lookup_props dp (fun s => s.interp_order) mods with
    | none =>
      simp only [h2] at h
      injection h with h'
      exact h'.symm
    | some ords =>
      simp only [h2] at h
      cases h3 : lookup_props dp (fun s => s.pixdim) mods with
      | none =>
        simp only [h3] at h
        injection h with h'
        exact h'.symm
      | some pds =>
        simp only [h3] at h
        cases h4 : lookup_props dp (fun s => s.axcodes) mods with
        | none =>
          simp only [h4] at h
          injection h with h'
          exact h'.symm
        | some acs =>
          simp only [h4] at h
          cases h

theorem lookup_props_none {α : Type} (dp : DataParam) (g : ModSpec → α) :
    ∀ (mods : List String) (mod : String), mod ∈ mods →
      alist_find dp mod = none → lookup_props dp g mods = none
  | [], mod, hmem, _ => absurd hmem (List.not_mem_nil mod)
  | m :: ms, mod, hmem, habs => by
    rcases List.mem_cons.mp hmem with rfl | hmem'
    · simp only [lookup_props, habs]
    · simp only [lookup_props,
        lookup_props_none dp g ms mod hmem' habs]
      cases alist_find dp m <;> rfl

theorem create_image_missing_modality (fl : DataFrame) (idx : Nat)
    (mods : List String) (dp : DataParam) (mod : String) (hmem : mod ∈ mods)
    (habs : alist_find dp mod = none) :
    _create_image fl idx mods dp = Except.error ReaderError.unknownModality := by
  have h2 := lookup_props_none dp (fun s => s.interp_order) mods mod hmem habs
  cases h1 : lookup_paths fl idx mods with
  | none => simp [_create_image, h1]
  | some fp => simp [_create_image, h1, h2]

theorem mapE_error_of_mem {α β : Type} (f : α → Except ReaderError β)
    (E : ReaderError)
    (huniq : ∀ x e, f x = Except.error e → e = E) :
    ∀ (l : List α), (∃ x ∈ l, f x = Except.error E) →
      mapE f l = Except.error E
  | [], ⟨x, hx, _⟩ => absurd hx (List.not_mem_nil x)
  | a :: l, ⟨x, hx, hfx⟩ => by
    cases hfa : f a with
    | error e =>
      have he := huniq a e hfa
      subst he
      simp [mapE, hfa]
    | ok y =>
      have hxl : x ∈ l := by
        rcases List.mem_cons.mp hx with rfl | hmem
        · rw [hfa] at hfx
          cases hfx
        · exact hmem
      have ih := mapE_error_of_mem f E huniq l ⟨x, hxl, hfx⟩
      simp [mapE, hfa, ih]

/-- C5: when some resolved field's modality tuple names a modality absent
from the per-modality properties table (data_param), building the catalog
over a non-empty merged file list fails with the UnknownModality fatal
condition: the whole catalog build returns the error and no partially
built catalog is returned. -/
theorem C5_unknown_modality_aborts (input_sources : List (String × TVal))
    (file_list : DataFrame) (dp : DataParam)
    (hrows : file_list.rows ≠ [])
    (hbad : ∃ fv ∈ input_sources, ∃ mod ∈ tvalMods fv.2,
      alist_find dp mod = none) :
    _filename_to_image_list input_sources file_list dp =
      Except.error ReaderError.unknownModality := by
  obtain ⟨fv, hfv, mod, hmod, habs⟩ := hbad
  have hentry : ∀ row_id : Nat,
      mapE (fun fv2 =>
        (_create_image file_list row_id (tvalMods fv2.2) dp).map
          (fun img => (fv2.1, img)))
        input_sources = Except.error ReaderError.unknownModality := by
    intro row_id
    apply mapE_error_of_mem
    · intro x e hx
      cases hc : _create_image file_list row_id (tvalMods x.2) dp with
      | error e2 =>
        rw [hc] at hx
        have he2 := create_image_error_eq file_list row_id (tvalMods x.2) dp e2 hc
        simp only [Except.map] at hx
        injection hx with h'
        rw [← h', he2]
      | ok img =>
        rw [hc] at hx
        simp only [Except.map] at hx
        cases hx
    · refine ⟨fv, hfv, ?_⟩
      rw [create_image_missing_modality file_list row_id (tvalMods fv.2) dp
        mod hmod habs]
      rfl
  unfold _filename_to_image_list
  apply mapE_error_of_mem
  · intro x e hx
    rw [hentry x] at hx
    injection hx with h'
    exact h'.symm
  · refine ⟨0, ?_, hentry 0⟩
    rw [List.mem_range]
    cases hn : file_list.rows.length with
    | zero => exact absurd (List.length_eq_zero.mp hn) hrows
    | succ n => omega

/-- Witness for C5: one field asking for a modality that data_param does
not configure. -/
theorem C5_unknown_modality_aborts_witness :
    _filename_to_image_list [("image", TVal.tup ["missing"])]
      { columns := ["subject_id", "A"], rows := [("s1", ["p1"])] }
      [("A", specA)] = Except.error ReaderError.unknownModality :=
  C5_unknown_modality_aborts [("image", TVal.tup ["missing"])]
    { columns := ["subject_id", "A"], rows := [("s1", ["p1"])] }
    [("A", specA)] (by decide)
    ⟨("image", TVal.tup ["missing"]), by decide, "missing", by decide, by decide⟩

/- ------------------------------------------------------------------ -/
/- Claims C6 and C10                                                  -/
/- ------------------------------------------------------------------ -/

/-- C6: the dtype inference returns 32-bit float whenever the sample
reports more than one distinct native element-type descriptor, and for a
single descriptor maps its kind through the fixed table: integer-like,
unsigned and boolean kinds to 32-bit int, the floating kind to 32-bit
float. -/
theorem C6_dtype_promotion (ds : List NpDtype) (d : NpDtype) :
    (1 < ds.dedup.length →
      infer_tf_dtypes ds = some (some TfDtype.float32)) ∧
    (ds.dedup = [d] →
      ((d.kind = "i" ∨ d.kind = "u" ∨ d.kind = "b") →
        infer_tf_dtypes ds = some (some TfDtype.int32)) ∧
      (d.kind = "f" → infer_tf_dtypes ds = some (some TfDtype.float32))) := by
  constructor
  · intro h
    simp only [infer_tf_dtypes]
    rw [if_pos h]
    rfl
  · intro hd
    constructor
    · intro hk
      simp only [infer_tf_dtypes, hd]
      rw [if_neg (by simp)]
      show some (NP_TF_DTYPES d.kind) = _
      rcases hk with h | h | h <;> rw [h] <;> rfl
    · intro hk
      simp only [infer_tf_dtypes, hd]
      rw [if_neg (by simp)]
      show some (NP_TF_DTYPES d.kind) = _
      rw [hk]
      rfl

/-- Witness for C6: a mixed int/float sample promotes to float, a
homogeneous int sample maps to int. -/
theorem C6_dtype_promotion_witness :
    infer_tf_dtypes [{ name := "int32", kind := "i" },
      { name := "float32", kind := "f" }] = some (some TfDtype.float32) ∧
    infer_tf_dtypes [{ name := "int32", kind := "i" }] =
      some (some TfDtype.int32) :=
  ⟨(C6_dtype_promotion [{ name := "int32", kind := "i" },
      { name := "float32", kind := "f" }] { name := "int32", kind := "i" }).1
      (by decide),
   ((C6_dtype_promotion [{ name := "int32", kind := "i" }]
      { name := "int32", kind := "i" }).2 (by decide)).1 (Or.inl rfl)⟩

/-- C10: a single native element-type descriptor whose kind is outside the
fixed table makes infer_tf_dtypes return the absent value None (a normal
return, not a raised error), so the dtypes map can silently hold entries
with no element type. -/
theorem C10_unknown_kind_none (ds : List NpDtype) (d : NpDtype)
    (hd : ds.dedup = [d])
    (hk : d.kind ≠ "i" ∧ d.kind ≠ "u" ∧ d.kind ≠ "b" ∧ d.kind ≠ "f") :
    infer_tf_dtypes ds = some none := by
  simp only [infer_tf_dtypes, hd]
  rw [if_neg (by simp)]
  show some (NP_TF_DTYPES d.kind) = some none
  have h1 : ¬((d.kind == "i") = true ∨ (d.kind == "u") = true ∨
      (d.kind == "b") = true) := by
    simp [hk.1, hk.2.1, hk.2.2.1]
  have h2 : ¬(d.kind == "f") = true := by simp [hk.2.2.2]
  rw [NP_TF_DTYPES, if_neg h1, if_neg h2]

/-- Witness for C10: a complex-kind descriptor yields None. -/
theorem C10_unknown_kind_none_witness :
    infer_tf_dtypes [{ name := "complex64", kind := "c" }] = some none :=
  C10_unknown_kind_none [{ name := "complex64", kind := "c" }]
    { name := "complex64", kind := "c" } (by decide) (by decide)

/-- Reader with empty field dictionaries used by the C9 witness. -/
def reader_w9 : Reader :=
  { output_fields := [], input_sources := [], output_list := [[], []],
    current_id := -1, file_list := none }

/-- Witness for C9: both access modes on a two-entry catalog of empty
dictionaries return the sentinel. -/
theorem C9_empty_entries_sentinel_witness :
    (layer_op reader_w9 true 1).2 = (none, none) ∧
    (layer_op reader_w9 false 0).2 = (none, none) :=
  ⟨C9_empty_entries_sentinel reader_w9 (by decide) true 1 (fun _ => by decide),
   C9_empty_entries_sentinel reader_w9 (by decide) false 0 (fun _ => by decide)⟩


/- ------------------------------------------------------------------ -/
/- Claims C3 and C7                                                   -/
/- ------------------------------------------------------------------ -/

/-- data_param of the initialisation examples: one modality A with the
two-subject manifest of specA. -/
def dp_x : DataParam := [("A", specA)]

def tp_x : TaskParam :=
  [("name", TVal.str "net_other.py"), ("mylabel", TVal.tup ["A"])]

def reader_x : Reader :=
  { output_fields := ["mylabel"], input_sources := [], output_list := [],
    current_id := 0, file_list := none }

/-- Counterexample for C3: with an unrecognized application kind but an
explicit non-empty output-field list, initialise_reader succeeds: the
supported-set reference is never evaluated, so no UnsupportedApplication
failure occurs, contradicting the claim's "regardless of whether the
caller supplied an explicit output-field list". -/
theorem C3_counterexample :
    exOk (initialise_reader ["image"] ["image"] reader_x dp_x tp_x) = true := by
  decide

/-- C3 (amended): for an unrecognized application kind, initialise_reader
fails with UnsupportedApplication when the caller supplied no explicit
output-field list (given a name entry and a successful manifest merge);
with an explicit non-empty list the supported-set lookup is never
reached. -/
theorem C3_unsupported_application (seg gan : List String) (r : Reader)
    (dp : DataParam) (tp : TaskParam) (app : String)
    (hname : alist_find tp "name" = some (TVal.str app))
    (hseg : app ≠ "net_segmentation.py") (hgan : app ≠ "net_gan.py")
    (hempty : r.output_fields = [])
    (hmerge : exOk (_load_and_merge_csv_files dp) = true) :
    initialise_reader seg gan r dp tp =
      Except.error ReaderError.unsupportedApplication := by
  have hsup : resolve_fields0 seg gan r (TVal.str app) = none := by
    rw [resolve_fields0, if_pos (by rw [hempty]; rfl)]
    show supported_input seg gan app = none
    rw [supported_input, if_neg (by simpa using hseg),
      if_neg (by simpa using hgan)]
  cases hm : _load_and_merge_csv_files dp with
  | error e =>
    rw [hm] at hmerge
    simp [exOk] at hmerge
  | ok df =>
    unfold initialise_reader
    simp only [hname, hm, hsup]

/-- Reader with an empty caller-supplied field list, used by the C3 and C7
witnesses. -/
def reader_nofields : Reader :=
  { output_fields := [], input_sources := [], output_list := [],
    current_id := 0, file_list := none }

/-- Witness for C3 (amended): unrecognized application, empty field list,
successful merge. -/
theorem C3_unsupported_application_witness :
    initialise_reader ["image"] ["image"] reader_nofields dp_x
      [("name", TVal.str "net_other.py")] =
      Except.error ReaderError.unsupportedApplication :=
  C3_unsupported_application ["image"] ["image"] reader_nofields dp_x
    [("name", TVal.str "net_other.py")] "net_other.py"
    (by decide) (by decide) (by decide) rfl (by decide)

def tp_c7 : TaskParam :=
  [("name", TVal.str "net_segmentation.py"), ("extra", TVal.tup ["A"]),
   ("image", TVal.tup ["A"])]

def reader_c7 : Reader :=
  { output_fields := ["extra"], input_sources := [], output_list := [],
    current_id := 0, file_list := none }

/-- Counterexample for C7: the supported set is ["image"], the caller
supplies the explicit list ["extra"], and task_param binds both extra and
image to non-empty tuples.  The claim predicts the resolved set ["image"]
(the fields that are in the application's supported set and non-empty
bound); the code resolves ["extra"]: the filter runs against the caller's
explicit list, never against the supported set. -/
theorem C7_counterexample :
    okFields (initialise_reader ["image"] [] reader_c7 dp_x tp_c7) =
      some ["extra"] ∧ ["extra"] ≠ ["image"] := by
  decide

/-- The field set the source's filter actually uses, as a function of the
initialisation inputs: the caller's explicit output-field list when
non-empty, otherwise the supported set of the application named in
task_param. -/
def effective_fields (seg gan : List String) (r : Reader) (tp : TaskParam) :
    Option (List String) :=
  match alist_find tp "name" with
  | some nv => resolve_fields0 seg gan r nv
  | none => none

theorem resolve_sources_keys (tp : TaskParam) :
    ∀ (fs : List String), (∀ f ∈ fs, (alist_find tp f).isSome = true) →
      (resolve_sources tp fs).map Prod.fst = fs
  | [], _ => rfl
  | f :: fs, h => by
    have hs := h f (List.mem_cons_self f fs)
    cases hv : alist_find tp f with
    | none =>
      rw [hv] at hs
      simp at hs
    | some v =>
      have ih := resolve_sources_keys tp fs
        (fun x hx => h x (List.mem_cons_of_mem f hx))
      simp only [resolve_sources] at ih ⊢
      simp only [List.filterMap_cons, hv, Option.map_some', List.map_cons, ih]

/-- C7 (amended): after every successful initialisation over a task_param
with distinct keys, the resolved output fields are exactly the task_param
keys that lie in the effective filter set (the caller's explicit
output-field list when one is given, otherwise the application's
supported set) and are bound to a value other than the empty tuple, in
task_param order; and input_sources has exactly the resolved fields as
keys, each mapped to its declared non-() value from task_param. -/
theorem C7_resolved_fields (seg gan : List String) (r r' : Reader)
    (dp : DataParam) (tp : TaskParam) (eff : List String)
    (hnd : (tp.map Prod.fst).Nodup)
    (heff : effective_fields seg gan r tp = some eff)
    (hok : initialise_reader seg gan r dp tp = Except.ok r') :
    r'.output_fields = resolve_output_fields eff tp ∧
    r'.input_sources.map Prod.fst = r'.output_fields ∧
    ∀ fv ∈ r'.input_sources,
      alist_find tp fv.1 = some fv.2 ∧ tvalNeUnit fv.2 = true := by
  have hrec : r'.output_fields = resolve_output_fields eff tp ∧
      r'.input_sources = resolve_sources tp (resolve_output_fields eff tp) := by
    cases hname : alist_find tp "name" with
    | none =>
      rw [effective_fields] at heff
      simp [hname] at heff
    | some nv =>
      rw [effective_fields] at heff
      simp only [hname] at heff
      cases hm : _load_and_merge_csv_files dp with
      | error e =>
        unfold initialise_reader at hok
        simp only [hname, hm] at hok
        exact Except.noConfusion hok
      | ok df =>
        unfold initialise_reader at hok
        simp only [hname, hm, heff] at hok
        split at hok
        · exact Except.noConfusion hok
        · injection hok with hok'
          subst hok'
          exact ⟨rfl, rfl⟩
  obtain ⟨ho1, ho2⟩ := hrec
  have hkeys : ∀ f ∈ resolve_output_fields eff tp,
      (alist_find tp f).isSome = true := by
    intro f hf
    rw [resolve_output_fields] at hf
    rcases List.mem_map.mp hf with ⟨p, hp, rfl⟩
    rcases List.mem_filter.mp hp with ⟨hptp, _⟩
    exact (alist_find_isSome tp p.1).mpr (List.mem_map.mpr ⟨p, hptp, rfl⟩)
  refine ⟨ho1, ?_, ?_⟩
  · rw [ho2, ho1]
    exact resolve_sources_keys tp _ hkeys
  · intro fv hfv
    rw [ho2, resolve_sources] at hfv
    rcases List.mem_filterMap.mp hfv with ⟨f, hfl, hg⟩
    cases hv : alist_find tp f with
    | none =>
      rw [hv] at hg
      exact Option.noConfusion hg
    | some v =>
      rw [hv] at hg
      injection hg with hg'
      subst hg'
      refine ⟨hv, ?_⟩
      rw [resolve_output_fields] at hfl
      rcases List.mem_map.mp hfl with ⟨p, hpfil, hpf⟩
      rcases List.mem_filter.mp hpfil with ⟨hptp, hcond⟩
      have h2 : tvalNeUnit p.2 = true := by
        simp at hcond
        exact hcond.2
      have hfind := alist_find_of_mem_nodup tp hnd p hptp
      rw [hpf, hv] at hfind
      injection hfind with hfind'
      show tvalNeUnit v = true
      rw [hfind']
      exact h2

/-- task_param of the C7 witness: the segmentation supported set is
["image"]; the label field is bound to the empty tuple and dropped. -/
def tp_w : TaskParam :=
  [("name", TVal.str "net_segmentation.py"), ("image", TVal.tup ["A"]),
   ("label", TVal.tup [])]

def img_a1 : ImageObj :=
  { file_path := ["a1.img"], name := ["A"], interp_order := [1],
    output_pixdim := ["pd"], output_axcodes := ["ac"],
    get_data := 0, dtype := [] }

def img_a2 : ImageObj :=
  { file_path := ["a2.img"], name := ["A"], interp_order := [1],
    output_pixdim := ["pd"], output_axcodes := ["ac"],
    get_data := 0, dtype := [] }

/-- The reader state produced by the C7 witness initialisation. -/
def reader_after : Reader :=
  { output_fields := ["image"], input_sources := [("image", TVal.tup ["A"])],
    output_list := [[("image", img_a1)], [("image", img_a2)]],
    current_id := -1,
    file_list := some { columns := ["subject_id", "A"],
                        rows := [("s1", ["a1.img"]), ("s2", ["a2.img"])] } }

/-- Witness for C7 (amended): a defaulted field list resolves against the
supported set ["image"], dropping the ()-bound label field. -/
theorem C7_resolved_fields_witness :
    reader_after.output_fields = resolve_output_fields ["image"] tp_w ∧
    reader_after.input_sources.map Prod.fst = reader_after.output_fields ∧
    ∀ fv ∈ reader_after.input_sources,
      alist_find tp_w fv.1 = some fv.2 ∧ tvalNeUnit fv.2 = true :=
  C7_resolved_fields ["image"] [] reader_nofields reader_after dp_x tp_w
    ["image"] (by decide) (by decide) rfl
